import Mathlib

/-!
Shallow embedding of the life-expectancy prediction service (`src/main.py`).
Real-number arithmetic of the source is modelled exactly over `ℚ`; Python's
`round` (half-to-even) and `int` (truncation toward zero) are modelled
explicitly.  Calendar dates are triples (year, month, day); `toOrdinal` is
`date.toordinal` (proleptic Gregorian, 0001-01-01 ↦ 1), and a response's
`predicted_death_date` is represented by its ordinal day number.
-/

-- Rational arithmetic is irreducible by default, which blocks `decide` on
-- concrete inputs; restore reducibility for this development.
attribute [local semireducible] Rat.add Rat.mul Rat.sub Rat.inv Rat.ofScientific

namespace LifeExp

/-- Floor of a rational (kernel-computable form; the denominator is
positive, and integer division is Euclidean, so this is the floor). -/
def ratFloor (x : ℚ) : ℤ := x.num / (x.den : ℤ)

-- if-based max/min, mirroring Python's `max`/`min` on two arguments
def qmax (a b : ℚ) : ℚ := if a ≤ b then b else a
def qmin (a b : ℚ) : ℚ := if a ≤ b then a else b
def zmax (a b : ℤ) : ℤ := if a ≤ b then b else a
def zmin (a b : ℤ) : ℤ := if a ≤ b then a else b

/-- Python `round(x)` to an integer: round half to even. -/
def rhe (x : ℚ) : ℤ :=
  if x - ratFloor x < 1/2 then ratFloor x
  else if 1/2 < x - ratFloor x then ratFloor x + 1
  else if ratFloor x % 2 = 0 then ratFloor x else ratFloor x + 1

def pyRound (x : ℚ) (k : ℕ) : ℚ := (rhe (x * 10 ^ k) : ℚ) / 10 ^ k

/-- Python `int(x)` on a real value: truncation toward zero. -/
def pyTrunc (x : ℚ) : ℤ := if 0 ≤ x then ratFloor x else -ratFloor (-x)

/-- Codepoints of the characters Python's `str.strip()` removes
(`Py_UNICODE_ISSPACE`; Unicode 14.0 tables of CPython 3.11). -/
def pySpaceCodes : List ℕ :=
  [0x9, 0xa, 0xb, 0xc, 0xd, 0x1c, 0x1d, 0x1e, 0x1f, 0x20, 0x85, 0xa0, 0x1680,
   0x2000, 0x2001, 0x2002, 0x2003, 0x2004, 0x2005, 0x2006, 0x2007, 0x2008,
   0x2009, 0x200a, 0x2028, 0x2029, 0x202f, 0x205f, 0x3000]

def isPySpace (c : Char) : Bool := pySpaceCodes.contains c.toNat

def pyStrip (s : String) : String :=
  ⟨((s.data.dropWhile isPySpace).reverse.dropWhile isPySpace).reverse⟩

/-- Python's `str.lower()`, per character.  A-Z lower to a-z, and KELVIN
SIGN U+212A lowers to "k"; these are the only codepoints whose Python
lowercase is a single ASCII character, and the only lowercase of more than
one character (U+0130) introduces the non-ASCII U+0307.  Every other
character is kept unchanged here, and its Python lowercase is again outside
ASCII, so a comparison between a lowered string and a plain ASCII constant
(the only use `pyLower` is put to: the baseline-table keys and the string
"unspecified") agrees with Python on every input. -/
def pyLowerChar (c : Char) : Char :=
  if 'A' ≤ c ∧ c ≤ 'Z' then Char.ofNat (c.toNat + 32)
  else if c.toNat = 0x212a then 'k'
  else c

def pyLower (s : String) : String := ⟨s.data.map pyLowerChar⟩

/-- Model of `PredictRequest` (src/main.py lines 21-30).  Numeric fields are `ℚ`/`ℤ`;
optional fields are `Option`; pydantic defaults are applied by the accessor
functions below exactly where the source applies them (`or` fallbacks). -/
structure PredictRequest where
  full_name : Option String
  birth_date : String
  gender : Option String
  is_smoker : Bool
  height_cm : Option ℚ
  weight_kg : Option ℚ
  weekly_exercise_mins : Option ℤ
  stress_level : Option ℤ
  country : Option String
deriving DecidableEq, Repr

/-- The pydantic field range constraints (lines 26-29): out-of-range values
are rejected at the boundary, so a request the engine ever sees satisfies
this predicate. -/
def PredictRequest.valid (r : PredictRequest) : Bool :=
  r.height_cm.all (fun h => decide (100 ≤ h ∧ h ≤ 250)) &&
  r.weight_kg.all (fun w => decide (30 ≤ w ∧ w ≤ 300)) &&
  r.weekly_exercise_mins.all (fun e => decide (0 ≤ e ∧ e ≤ 2000)) &&
  r.stress_level.all (fun s => decide (1 ≤ s ∧ s ≤ 5))

/-- The table `BASE_LIFE_EXPECTANCY` (lines 53-60): country key ↦ (male, female,
unspecified) row; `none` for a key not in the table. -/
def BASE_ROW (c : String) : Option (ℚ × ℚ × ℚ) :=
  if c = "global" then some (71.0, 75.6, 73.3)
  else if c = "usa" then some (73.2, 79.1, 76.2)
  else if c = "uk" then some (79.0, 82.9, 81.0)
  else if c = "india" then some (67.5, 70.7, 69.1)
  else if c = "japan" then some (81.5, 87.6, 84.5)
  else if c = "nigeria" then some (53.5, 55.2, 54.4)
  else none

/-- Model of `parse_country` (lines 63-67).  Python `not key` is true for `None` and
for the empty string. -/
def parse_country (key : Option String) : String :=
  match key with
  | none => "global"
  | some s =>
    if s = "" then "global"
    else
      let k := pyLower (pyStrip s)
      if (BASE_ROW k).isSome then k else "global"

/-- Model of `calc_bmi` (lines 70-76).  Python `not height_cm` is also true for `0.0`,
hence the explicit zero tests. -/
def calc_bmi (height_cm weight_kg : Option ℚ) : Option ℚ :=
  match height_cm, weight_kg with
  | some h, some w =>
    if h = 0 ∨ w = 0 then none
    else
      let m := h / 100
      if m ≤ 0 then none
      else some (pyRound (w / (m * m)) 1)
  | _, _ => none

/-- Python `x or default` on an optional string (empty string is falsy). -/
def orDefaultStr (v : Option String) (d : String) : String :=
  match v with
  | none => d
  | some s => if s = "" then d else s

/-- The key `req.gender or "unspecified"` (lines 82 and 126). -/
def genderKey (req : PredictRequest) : String := orDefaultStr req.gender "unspecified"

/-- Dict access `row.get(g, row["unspecified"])` (line 82): a case-sensitive lookup in a
dict whose keys are `male`, `female`, `unspecified`. -/
def lookupGenderRow (row : ℚ × ℚ × ℚ) (g : String) : ℚ :=
  if g = "male" then row.1
  else if g = "female" then row.2.1
  else row.2.2

/-- The baseline picked on lines 81-82.  `parse_country` always returns a key
of the table, so the `getD` default is never consulted. -/
def baseOf (req : PredictRequest) : ℚ :=
  lookupGenderRow ((BASE_ROW (parse_country req.country)).getD (71, 75.6, 73.3)) (genderKey req)

/-- Smoking entries (lines 88-93). -/
def smokeAdj (smoker : Bool) : List (String × ℚ) :=
  if smoker then [("smoking", -7)] else [("non_smoker_bonus", 1.5)]

/-- Python `ex = req.weekly_exercise_mins or 0` (line 96). -/
def exerciseVal (req : PredictRequest) : ℤ :=
  match req.weekly_exercise_mins with
  | none => 0
  | some e => e

/-- Exercise entries (lines 97-103). -/
def exerciseAdj (ex : ℤ) : List (String × ℚ) :=
  if 300 ≤ ex then [("exercise", 2.5)]
  else if 150 ≤ ex then [("exercise", 1.5)]
  else if 0 < ex then [("exercise", 0.5)]
  else []

/-- Python `stress = req.stress_level or 3` (line 106): `None` and `0` fall back. -/
def stressVal (req : PredictRequest) : ℤ :=
  match req.stress_level with
  | none => 3
  | some s => if s = 0 then 3 else s

/-- The stress-penalty dict (line 107).  The source raises `KeyError` outside
1..5; validation guarantees 1 ≤ stress ≤ 5, so the final branch is
unreachable for requests the engine sees. -/
def stress_penalty (s : ℤ) : ℚ :=
  if s = 1 then -0.5
  else if s = 2 then -1
  else if s = 3 then -1.5
  else if s = 4 then -2.2
  else if s = 5 then -3
  else 0

/-- The BMI category delta (lines 113-122). -/
def bmiAdj (b : ℚ) : ℚ :=
  if b < 18.5 then -1.5
  else if b < 25 then 1
  else if b < 30 then -1
  else if b < 35 then -3
  else -6

/-- BMI entries (lines 111-122): one entry when the BMI is computable. -/
def bmiEntries (req : PredictRequest) : List (String × ℚ) :=
  match calc_bmi req.height_cm req.weight_kg with
  | none => []
  | some b => [("bmi", bmiAdj b)]

/-- Gender-unspecified entry (lines 126-127). -/
def genderEntries (req : PredictRequest) : List (String × ℚ) :=
  if pyLower (genderKey req) = "unspecified" then [("gender_unspecified", -0.3)] else []

/-- The adjustments dict in insertion order (lines 84-127).  No key is ever
inserted twice, so an association list is a faithful model. -/
def adjustmentsOf (req : PredictRequest) : List (String × ℚ) :=
  smokeAdj req.is_smoker ++ exerciseAdj (exerciseVal req)
    ++ [("stress", stress_penalty (stressVal req))]
    ++ bmiEntries req ++ genderEntries req

/-- The confidence accumulator before the final clamp (lines 85-123). -/
def confidenceRaw (req : PredictRequest) : ℤ :=
  70 + (if req.is_smoker then -5 else 2)
    + (if 300 ≤ exerciseVal req then 2 else 0)
    + (if (calc_bmi req.height_cm req.weight_kg).isSome then 3 else 0)

def sumAdj (l : List (String × ℚ)) : ℚ := (l.map Prod.snd).sum

/-- Model of `estimate_lifespan_years` (lines 79-133): clamped lifespan, the
adjustments dict, and the clamped confidence. -/
def estimate_lifespan_years (req : PredictRequest) : ℚ × List (String × ℚ) × ℤ :=
  (qmax 40 (qmin 100 (baseOf req + sumAdj (adjustmentsOf req))),
   adjustmentsOf req,
   zmax 50 (zmin 90 (confidenceRaw req)))

/-- First-match lookup in an association list (dict access). -/
def lookupAdj (l : List (String × ℚ)) (k : String) : Option ℚ :=
  match l with
  | [] => none
  | (k', v) :: t => if k' = k then some v else lookupAdj t k

/-- A proleptic-Gregorian calendar date, as in `datetime.date`. -/
structure PyDate where
  year : ℕ
  month : ℕ
  day : ℕ
deriving DecidableEq, Repr

def isLeap (y : ℕ) : Bool := y % 4 = 0 ∧ (y % 100 ≠ 0 ∨ y % 400 = 0)

def daysInMonth (y m : ℕ) : ℕ :=
  if m = 2 then (if isLeap y then 29 else 28)
  else if m = 4 ∨ m = 6 ∨ m = 9 ∨ m = 11 then 30
  else 31

def daysBeforeMonth (y m : ℕ) : ℕ :=
  (if m ≥ 2 then 31 else 0) + (if m ≥ 3 then (if isLeap y then 29 else 28) else 0)
    + (if m ≥ 4 then 31 else 0) + (if m ≥ 5 then 30 else 0) + (if m ≥ 6 then 31 else 0)
    + (if m ≥ 7 then 30 else 0) + (if m ≥ 8 then 31 else 0) + (if m ≥ 9 then 31 else 0)
    + (if m ≥ 10 then 30 else 0) + (if m ≥ 11 then 31 else 0) + (if m ≥ 12 then 30 else 0)

/-- Python `date.toordinal()`: day number with 0001-01-01 ↦ 1. -/
def toOrdinal (d : PyDate) : ℤ :=
  (365 * (d.year - 1) + (d.year - 1) / 4 - (d.year - 1) / 100 + (d.year - 1) / 400
    + daysBeforeMonth d.year d.month + d.day : ℕ)

/-- Validity of a date: what `datetime.date(y, m, d)` accepts. -/
def PyDate.ok (d : PyDate) : Bool :=
  1 ≤ d.year ∧ d.year ≤ 9999 ∧ 1 ≤ d.month ∧ d.month ≤ 12 ∧ 1 ≤ d.day ∧ d.day ≤ daysInMonth d.year d.month

/-- Comparison `a < b` on dates: lexicographic on (year, month, day), as in Python. -/
def dateLt (a b : PyDate) : Bool :=
  a.year < b.year ∨ (a.year = b.year ∧ (a.month < b.month ∨ (a.month = b.month ∧ a.day < b.day)))

/-- Start codepoints of the 66 aligned blocks of ten consecutive decimal
digit characters (Unicode category Nd; Unicode 14.0 tables of CPython
3.11).  `\d` in the `_strptime` regular expressions matches exactly these
characters, and `int()` reads each as its position in its block. -/
def ndBlockStarts : List ℕ :=
  [0x30, 0x660, 0x6f0, 0x7c0, 0x966, 0x9e6, 0xa66, 0xae6, 0xb66, 0xbe6,
   0xc66, 0xce6, 0xd66, 0xde6, 0xe50, 0xed0, 0xf20, 0x1040, 0x1090, 0x17e0,
   0x1810, 0x1946, 0x19d0, 0x1a80, 0x1a90, 0x1b50, 0x1bb0, 0x1c40, 0x1c50,
   0xa620, 0xa8d0, 0xa900, 0xa9d0, 0xa9f0, 0xaa50, 0xabf0, 0xff10, 0x104a0,
   0x10d30, 0x11066, 0x110f0, 0x11136, 0x111d0, 0x112f0, 0x11450, 0x114d0,
   0x11650, 0x116c0, 0x11730, 0x118e0, 0x11950, 0x11c50, 0x11d50, 0x11da0,
   0x16a60, 0x16ac0, 0x16b50, 0x1d7ce, 0x1d7d8, 0x1d7e2, 0x1d7ec, 0x1d7f6,
   0x1e140, 0x1e2f0, 0x1e950, 0x1fbf0]

def isPyDigit (c : Char) : Bool :=
  ndBlockStarts.any (fun s => decide (s ≤ c.toNat ∧ c.toNat ≤ s + 9))

def pyDigitVal (c : Char) : ℕ :=
  match ndBlockStarts.find? (fun s => decide (s ≤ c.toNat ∧ c.toNat ≤ s + 9)) with
  | some s => c.toNat - s
  | none => 0

def isAsciiDigit19 (c : Char) : Bool := '1' ≤ c ∧ c ≤ '9'

/-- The `%m` field of `strptime` followed by the literal dash: the pattern
`1[0-2]|0[1-9]|[1-9]` with the regex engine's backtracking.  Returns the
month and the characters after the dash.  The alternatives are literal
ASCII digits, so no Unicode digit is accepted here. -/
def parseMonthField : List Char → Option (ℕ × List Char)
  | '1' :: c :: rest =>
    if '0' ≤ c ∧ c ≤ '2' then
      match rest with
      | '-' :: rest' => some (10 + (c.toNat - 48), rest')
      | _ => none
    else if c = '-' then some (1, rest)
    else none
  | '0' :: c :: rest =>
    if isAsciiDigit19 c then
      match rest with
      | '-' :: rest' => some (c.toNat - 48, rest')
      | _ => none
    else none
  | c :: '-' :: rest =>
    if '2' ≤ c ∧ c ≤ '9' then some (c.toNat - 48, rest) else none
  | _ => none

/-- The `%d` field of `strptime` at the end of the input: the pattern
`3[0-1]|[1-2]\d|0[1-9]|[1-9]| [1-9]` (note the space-padded single-digit
form, and that `\d` admits any Nd digit as second character).  Any
characters left after the match make `strptime` raise for unconverted data,
so they fail the parse here. -/
def parseDayField : List Char → Option ℕ
  | ['3', c] => if c = '0' ∨ c = '1' then some (30 + (c.toNat - 48)) else none
  | [c1, c2] =>
    if (c1 = '1' ∨ c1 = '2') ∧ isPyDigit c2 then
      some (10 * (c1.toNat - 48) + pyDigitVal c2)
    else if c1 = '0' ∧ isAsciiDigit19 c2 then some (c2.toNat - 48)
    else if c1 = ' ' ∧ isAsciiDigit19 c2 then some (c2.toNat - 48)
    else none
  | [c] => if isAsciiDigit19 c then some (c.toNat - 48) else none
  | _ => none

/-- Model of `datetime.strptime(v, "%Y-%m-%d")` (lines 35 and 150) against
CPython 3.11: `%Y` is exactly four decimal digits (`\d\d\d\d`, any Unicode
Nd digit), the dashes are literal, `%m` and `%d` follow the `_strptime`
patterns above, nothing may remain, and the numbers must form a valid
`datetime.date` (year at least 1, real calendar day).  `none` models the
`ValueError`. -/
def parseDate (s : String) : Option PyDate :=
  match s.data with
  | y1 :: y2 :: y3 :: y4 :: '-' :: rest =>
    if isPyDigit y1 ∧ isPyDigit y2 ∧ isPyDigit y3 ∧ isPyDigit y4 then
      let y := 1000 * pyDigitVal y1 + 100 * pyDigitVal y2 + 10 * pyDigitVal y3 + pyDigitVal y4
      match parseMonthField rest with
      | none => none
      | some (m, rest2) =>
        match parseDayField rest2 with
        | none => none
        | some d => if (PyDate.mk y m d).ok then some (PyDate.mk y m d) else none
    else none
  | _ => none

/-- Model of `PredictResponse` (lines 41-49 and 166-175); the death date is kept as
its ordinal day number. -/
structure PredictResponse where
  name : Option String
  birth : PyDate
  current_age_years : ℚ
  predicted_lifespan_years : ℚ
  predicted_death_ord : ℤ
  remaining_years : ℚ
  confidence : ℤ
  factors : List (String × ℚ)
deriving DecidableEq, Repr

def yearDays : ℚ := 365.2425

/-- Model of `predict_life` (lines 147-175), with the evaluation date `today` passed
explicitly in place of `date.today()`.  `.error` models the 400 responses. -/
def predict_life (req : PredictRequest) (today : PyDate) : Except String PredictResponse :=
  match parseDate req.birth_date with
  | none => .error "Invalid birth_date format. Use YYYY-MM-DD"
  | some dob =>
    if dateLt today dob then .error "birth_date cannot be in the future"
    else
      let age_days : ℤ := toOrdinal today - toOrdinal dob
      let age_years : ℚ := pyRound ((age_days : ℚ) / yearDays) 2
      let r := estimate_lifespan_years req
      let remaining : ℚ := qmax 0 (r.1 - age_years)
      .ok
        { name := req.full_name
          birth := dob
          current_age_years := pyRound age_years 2
          predicted_lifespan_years := pyRound r.1 2
          predicted_death_ord := toOrdinal today + pyTrunc (remaining * yearDays)
          remaining_years := pyRound remaining 2
          confidence := r.2.2
          factors := r.2.1.map (fun p => (p.1, pyRound p.2 2)) }

def isErr (e : Except String PredictResponse) : Bool :=
  match e with
  | .error _ => true
  | .ok _ => false

def respAge (e : Except String PredictResponse) : Option ℚ :=
  match e with
  | .ok v => some v.current_age_years
  | .error _ => none

def respRemaining (e : Except String PredictResponse) : Option ℚ :=
  match e with
  | .ok v => some v.remaining_years
  | .error _ => none

def respDeath (e : Except String PredictResponse) : Option ℤ :=
  match e with
  | .ok v => some v.predicted_death_ord
  | .error _ => none

/-- The endpoint rejects a request on its birth date exactly when the date
string fails to parse or parses to a date after `today`. -/
def birthRejected (s : String) (today : PyDate) : Bool :=
  match parseDate s with
  | none => true
  | some dob => dateLt today dob

-- Field updates used to compare a request with a pointwise variant of it.
def setStress (req : PredictRequest) (s : ℤ) : PredictRequest :=
  { req with stress_level := some s }

def setGender (req : PredictRequest) (g : Option String) : PredictRequest :=
  { req with gender := g }

def setCountry (req : PredictRequest) (c : Option String) : PredictRequest :=
  { req with country := c }

def setEx (req : PredictRequest) (e : Option ℤ) : PredictRequest :=
  { req with weekly_exercise_mins := e }

def withBirth (req : PredictRequest) (b : String) : PredictRequest :=
  { req with birth_date := b }

/-- The concrete scenario request of the spec's testable properties. -/
def reqScenario : PredictRequest :=
  { full_name := none, birth_date := "1990-01-01", gender := some "male",
    is_smoker := false, height_cm := some 180, weight_kg := some 75,
    weekly_exercise_mins := some 200, stress_level := some 2, country := some "usa" }

/-- A valid request whose gender is not recognized even case-insensitively. -/
def reqGx : PredictRequest :=
  { full_name := none, birth_date := "1990-01-01", gender := some "x",
    is_smoker := false, height_cm := none, weight_kg := none,
    weekly_exercise_mins := none, stress_level := none, country := none }

/-- The scenario request with a birth date one day before the evaluation
date used below. -/
def reqC5 : PredictRequest := { reqScenario with birth_date := "2026-10-11" }

/-- A valid request naming a country that is not in the baseline table. -/
def reqAtl : PredictRequest := { reqGx with country := some " Atlantis " }

/-- The scenario request with a birth date far in the past, so that the
current age exceeds the predicted lifespan. -/
def reqOld : PredictRequest := { reqScenario with birth_date := "1900-01-01" }

/-! ### Helper lemmas -/

lemma qmax_eq (a b : ℚ) : qmax a b = max a b := (max_def a b).symm

lemma qmin_eq (a b : ℚ) : qmin a b = min a b := (min_def a b).symm

lemma sumAdj_append (a b : List (String × ℚ)) : sumAdj (a ++ b) = sumAdj a + sumAdj b := by
  simp [sumAdj]

lemma confidenceRaw_ge (req : PredictRequest) : 65 ≤ confidenceRaw req := by
  unfold confidenceRaw
  split_ifs <;> omega

lemma confidenceRaw_le (req : PredictRequest) : confidenceRaw req ≤ 77 := by
  unfold confidenceRaw
  split_ifs <;> omega

/-- The clamp to [50, 90] never changes the accumulated confidence. -/
lemma conf_clamped (req : PredictRequest) :
    (estimate_lifespan_years req).2.2 = confidenceRaw req := by
  have h1 := confidenceRaw_ge req
  have h2 := confidenceRaw_le req
  show zmax 50 (zmin 90 (confidenceRaw req)) = confidenceRaw req
  unfold zmax zmin
  split_ifs <;> omega

lemma lookupAdj_append (a b : List (String × ℚ)) (k : String) :
    lookupAdj (a ++ b) k = (lookupAdj a k).or (lookupAdj b k) := by
  induction a with
  | nil => simp [lookupAdj]
  | cons p t ih =>
    rcases p with ⟨k', v⟩
    by_cases h : k' = k
    · simp [lookupAdj, h]
    · simp [lookupAdj, h, ih]

lemma lookup_ex_smoke (b : Bool) : lookupAdj (smokeAdj b) "exercise" = none := by
  cases b <;> rfl

lemma lookup_ex_exerciseAdj (e : ℤ) :
    lookupAdj (exerciseAdj e) "exercise" =
      (if 300 ≤ e then some 2.5 else if 150 ≤ e then some 1.5
       else if 0 < e then some 0.5 else none) := by
  unfold exerciseAdj
  split_ifs <;> rfl

lemma lookup_ex_bmi (req : PredictRequest) : lookupAdj (bmiEntries req) "exercise" = none := by
  unfold bmiEntries
  cases calc_bmi req.height_cm req.weight_kg <;> simp [lookupAdj]

lemma lookup_ex_gender (req : PredictRequest) : lookupAdj (genderEntries req) "exercise" = none := by
  unfold genderEntries
  split_ifs <;> simp [lookupAdj]

/-- The "exercise" key of the adjustments dict is decided by the exercise
branch alone. -/
lemma lookupAdj_adjustments_ex (req : PredictRequest) :
    lookupAdj (adjustmentsOf req) "exercise" =
      lookupAdj (exerciseAdj (exerciseVal req)) "exercise" := by
  unfold adjustmentsOf
  simp [lookupAdj_append, lookup_ex_smoke, lookup_ex_bmi, lookup_ex_gender, lookupAdj]

/-! ### Claims -/

/-- Claim C2: on the concrete scenario request (birth 1990-01-01, male, usa,
non-smoker, 180 cm, 75 kg, 200 exercise minutes, stress 2) the engine
returns base 73.2, adjustments non_smoker_bonus = +1.5, exercise = +1.5,
stress = -1.0, bmi = +1.0, lifespan exactly 76.2 and confidence exactly
75. -/
theorem C2_concrete_scenario :
    baseOf reqScenario = 73.2 ∧
    estimate_lifespan_years reqScenario =
      (76.2, [("non_smoker_bonus", 1.5), ("exercise", 1.5), ("stress", -1.0), ("bmi", 1.0)], 75) := by
  constructor <;> decide

/-- Claim C3: for every valid request the returned lifespan lies in
[40, 100] and the returned confidence lies in [50, 90]. -/
theorem C3_output_bounds (req : PredictRequest) (hv : req.valid = true) :
    40 ≤ (estimate_lifespan_years req).1 ∧ (estimate_lifespan_years req).1 ≤ 100 ∧
    50 ≤ (estimate_lifespan_years req).2.2 ∧ (estimate_lifespan_years req).2.2 ≤ 90 := by
  refine ⟨?_, ?_, ?_, ?_⟩
  · show 40 ≤ qmax 40 (qmin 100 _)
    unfold qmax qmin; split_ifs <;> linarith
  · show qmax 40 (qmin 100 _) ≤ 100
    unfold qmax qmin; split_ifs <;> linarith
  · show 50 ≤ zmax 50 (zmin 90 _)
    unfold zmax zmin; split_ifs <;> omega
  · show zmax 50 (zmin 90 _) ≤ 90
    unfold zmax zmin; split_ifs <;> omega

theorem C3_output_bounds_w :
    reqScenario.valid = true ∧
    (40 ≤ (estimate_lifespan_years reqScenario).1 ∧
      (estimate_lifespan_years reqScenario).1 ≤ 100 ∧
      50 ≤ (estimate_lifespan_years reqScenario).2.2 ∧
      (estimate_lifespan_years reqScenario).2.2 ≤ 90) :=
  ⟨by decide, C3_output_bounds reqScenario (by decide)⟩

/-- Claim C9: for every valid request the accumulated confidence is in
[65, 77], so the clamp to [50, 90] never changes it and the extremes 50 and
90 are unreachable. -/
theorem C9_confidence_range (req : PredictRequest) (hv : req.valid = true) :
    65 ≤ (estimate_lifespan_years req).2.2 ∧ (estimate_lifespan_years req).2.2 ≤ 77 ∧
    (estimate_lifespan_years req).2.2 = confidenceRaw req := by
  rw [conf_clamped]
  exact ⟨confidenceRaw_ge req, confidenceRaw_le req, rfl⟩

theorem C9_confidence_range_w :
    reqGx.valid = true ∧
    (65 ≤ (estimate_lifespan_years reqGx).2.2 ∧
      (estimate_lifespan_years reqGx).2.2 ≤ 77 ∧
      (estimate_lifespan_years reqGx).2.2 = confidenceRaw reqGx) :=
  ⟨by decide, C9_confidence_range reqGx (by decide)⟩

/-- Claim C4: for every valid request, the exercise adjustment is tiered on
the weekly minutes `ex`: `ex ≥ 300` gives entry +2.5 and adds 2 to the
returned confidence (relative to the same request with no exercise);
`150 ≤ ex < 300` gives +1.5 with no confidence change; `0 < ex < 150` gives
+0.5; `ex = 0` gives no exercise entry at all. -/
theorem C4_exercise_tiers (req : PredictRequest) (hv : req.valid = true) :
    lookupAdj (estimate_lifespan_years req).2.1 "exercise" =
      (if 300 ≤ exerciseVal req then some 2.5
       else if 150 ≤ exerciseVal req then some 1.5
       else if 0 < exerciseVal req then some 0.5
       else none) ∧
    (estimate_lifespan_years req).2.2 =
      (estimate_lifespan_years (setEx req (some 0))).2.2
        + (if 300 ≤ exerciseVal req then 2 else 0) := by
  constructor
  · show lookupAdj (adjustmentsOf req) "exercise" = _
    rw [lookupAdj_adjustments_ex, lookup_ex_exerciseAdj]
  · rw [conf_clamped, conf_clamped]
    have h1 : exerciseVal (setEx req (some 0)) = 0 := rfl
    have h2 : calc_bmi (setEx req (some 0)).height_cm (setEx req (some 0)).weight_kg
        = calc_bmi req.height_cm req.weight_kg := rfl
    have h3 : (setEx req (some 0)).is_smoker = req.is_smoker := rfl
    unfold confidenceRaw
    rw [h1, h2, h3]
    split_ifs <;> omega

theorem C4_exercise_tiers_w :
    reqScenario.valid = true ∧
    (lookupAdj (estimate_lifespan_years reqScenario).2.1 "exercise" =
      (if 300 ≤ exerciseVal reqScenario then some 2.5
       else if 150 ≤ exerciseVal reqScenario then some 1.5
       else if 0 < exerciseVal reqScenario then some 0.5
       else none) ∧
    (estimate_lifespan_years reqScenario).2.2 =
      (estimate_lifespan_years (setEx reqScenario (some 0))).2.2
        + (if 300 ≤ exerciseVal reqScenario then 2 else 0)) :=
  ⟨by decide, C4_exercise_tiers reqScenario (by decide)⟩

end LifeExp

namespace LifeExp

lemma sumAdj_singleton (k : String) (v : ℚ) : sumAdj [(k, v)] = v := by
  simp [sumAdj]

/-- Setting the stress level changes only the stress entry of the sum. -/
lemma sumAdj_setStress (req : PredictRequest) (s : ℤ) (hs : s ≠ 0) :
    sumAdj (adjustmentsOf (setStress req s)) =
      sumAdj (smokeAdj req.is_smoker) + sumAdj (exerciseAdj (exerciseVal req))
        + stress_penalty s + sumAdj (bmiEntries req) + sumAdj (genderEntries req) := by
  have h1 : smokeAdj (setStress req s).is_smoker = smokeAdj req.is_smoker := rfl
  have h2 : exerciseVal (setStress req s) = exerciseVal req := rfl
  have h3 : bmiEntries (setStress req s) = bmiEntries req := rfl
  have h4 : genderEntries (setStress req s) = genderEntries req := rfl
  have h5 : stressVal (setStress req s) = s := by
    show (if s = 0 then 3 else s) = s
    simp [hs]
  unfold adjustmentsOf
  rw [h1, h2, h3, h4, h5, sumAdj_append, sumAdj_append, sumAdj_append, sumAdj_append,
    sumAdj_singleton]

lemma stress_penalty_antitone {s1 s2 : ℤ} (h1 : 1 ≤ s1) (h1' : s1 ≤ 5)
    (h2 : 1 ≤ s2) (h2' : s2 ≤ 5) (h : s1 ≤ s2) :
    stress_penalty s2 ≤ stress_penalty s1 := by
  interval_cases s1 <;> interval_cases s2 <;> norm_num [stress_penalty]

/-- Claim C7: with everything else fixed, a higher stress level never gives
a higher predicted lifespan. -/
theorem C7_stress_monotone (req : PredictRequest) (s1 s2 : ℤ)
    (h1 : 1 ≤ s1) (h1' : s1 ≤ 5) (h2 : 1 ≤ s2) (h2' : s2 ≤ 5) (hle : s1 ≤ s2) :
    (estimate_lifespan_years (setStress req s2)).1 ≤
      (estimate_lifespan_years (setStress req s1)).1 := by
  have hb2 : baseOf (setStress req s2) = baseOf req := rfl
  have hb1 : baseOf (setStress req s1) = baseOf req := rfl
  have e2 := sumAdj_setStress req s2 (by omega)
  have e1 := sumAdj_setStress req s1 (by omega)
  have hp := stress_penalty_antitone h1 h1' h2 h2' hle
  show qmax 40 (qmin 100 _) ≤ qmax 40 (qmin 100 _)
  rw [qmax_eq, qmax_eq, qmin_eq, qmin_eq, hb1, hb2, e1, e2]
  exact max_le_max le_rfl (min_le_min le_rfl (by linarith))

theorem C7_stress_monotone_w :
    ((1:ℤ) ≤ 2 ∧ (2:ℤ) ≤ 5 ∧ (1:ℤ) ≤ 4 ∧ (4:ℤ) ≤ 5 ∧ (2:ℤ) ≤ 4) ∧
    (estimate_lifespan_years (setStress reqScenario 4)).1 ≤
      (estimate_lifespan_years (setStress reqScenario 2)).1 :=
  ⟨by decide,
    C7_stress_monotone reqScenario 2 4 (by decide) (by decide) (by decide) (by decide) (by decide)⟩

/-- Claim C8: if the trimmed, lowercased country is empty or not a key of
the baseline table, the baseline is the one for country "global" (same
gender); a recognized country resolves to its trimmed lowercased key, so
resolution is invariant under case and surrounding whitespace. -/
theorem C8_country_fallback (req : PredictRequest) (c : String) (hv : req.valid = true)
    (hc : req.country = some c) :
    ((pyLower (pyStrip c) = "" ∨ BASE_ROW (pyLower (pyStrip c)) = none) →
      baseOf req = baseOf (setCountry req (some "global"))) ∧
    ((BASE_ROW (pyLower (pyStrip c))).isSome = true →
      parse_country req.country = pyLower (pyStrip c)) := by
  have hgk : genderKey (setCountry req (some "global")) = genderKey req := rfl
  have hc2 : (setCountry req (some "global")).country = some "global" := rfl
  have hglob : parse_country (some "global") = "global" := by decide
  constructor
  · intro hbad
    have hnone : BASE_ROW (pyLower (pyStrip c)) = none := by
      rcases hbad with hb | hb
      · rw [hb]; decide
      · exact hb
    have hpc : parse_country req.country = "global" := by
      rw [hc]
      unfold parse_country
      by_cases hce : c = ""
      · simp [hce]
      · simp [hce, hnone]
    unfold baseOf
    rw [hpc, hgk, hc2, hglob]
  · intro hsome
    have hce : c ≠ "" := by
      intro h
      rw [h] at hsome
      exact absurd hsome (by decide)
    rw [hc]
    unfold parse_country
    simp [hce, hsome]

theorem C8_country_fallback_w :
    reqAtl.valid = true ∧ reqAtl.country = some " Atlantis " ∧
    (pyLower (pyStrip " Atlantis ") = "" ∨ BASE_ROW (pyLower (pyStrip " Atlantis ")) = none) ∧
    baseOf reqAtl = baseOf (setCountry reqAtl (some "global")) :=
  ⟨by decide, by decide, by decide,
    (C8_country_fallback reqAtl " Atlantis " (by decide) (by decide)).1 (by decide)⟩

end LifeExp

namespace LifeExp

lemma lookup_gu_smoke (b : Bool) : lookupAdj (smokeAdj b) "gender_unspecified" = none := by
  cases b <;> rfl

lemma lookup_gu_exercise (e : ℤ) : lookupAdj (exerciseAdj e) "gender_unspecified" = none := by
  unfold exerciseAdj
  split_ifs <;> rfl

lemma lookup_gu_bmi (req : PredictRequest) :
    lookupAdj (bmiEntries req) "gender_unspecified" = none := by
  unfold bmiEntries
  cases calc_bmi req.height_cm req.weight_kg <;> simp [lookupAdj]

/-- Claim C1 as stated is false on the code: a valid request with the
unrecognized gender "x" receives the unspecified baseline 73.3, but no
gender_unspecified entry, so its prediction is not identical to that of
gender "unspecified" (whose lifespan is 0.3 lower). -/
theorem C1_counterexample :
    reqGx.valid = true ∧
    estimate_lifespan_years reqGx ≠
      estimate_lifespan_years (setGender reqGx (some "unspecified")) ∧
    lookupAdj (estimate_lifespan_years reqGx).2.1 "gender_unspecified" = none ∧
    (estimate_lifespan_years (setGender reqGx (some "unspecified"))).1 =
      (estimate_lifespan_years reqGx).1 - 0.3 :=
  ⟨by decide, by decide, by decide, by decide⟩

/-- Claim C1 amended: for a valid request whose nonempty gender is not
case-insensitively male/female/unspecified, the baseline is the one for
gender "unspecified", the confidence is unchanged, but the adjustment set
has no gender_unspecified entry: it is exactly the adjustment set of the
gender-"unspecified" request minus its trailing gender_unspecified = -0.3
entry, so the unclamped lifespan is 0.3 higher. -/
theorem C1_amended (req : PredictRequest) (g : String) (hv : req.valid = true)
    (hg : req.gender = some g) (hne : g ≠ "")
    (hm : pyLower g ≠ "male") (hf : pyLower g ≠ "female") (hu : pyLower g ≠ "unspecified") :
    baseOf req = baseOf (setGender req (some "unspecified")) ∧
    adjustmentsOf (setGender req (some "unspecified"))
      = adjustmentsOf req ++ [("gender_unspecified", -0.3)] ∧
    lookupAdj (adjustmentsOf req) "gender_unspecified" = none ∧
    (estimate_lifespan_years req).2.2
      = (estimate_lifespan_years (setGender req (some "unspecified"))).2.2 ∧
    sumAdj (adjustmentsOf (setGender req (some "unspecified")))
      = sumAdj (adjustmentsOf req) + (-0.3) := by
  have hgname : genderKey req = g := by
    simp [genderKey, orDefaultStr, hg, hne]
  have hgm : g ≠ "male" := fun e => hm (by rw [e]; decide)
  have hgf : g ≠ "female" := fun e => hf (by rw [e]; decide)
  have hgu : g ≠ "unspecified" := fun e => hu (by rw [e]; decide)
  have hgk2 : genderKey (setGender req (some "unspecified")) = "unspecified" := rfl
  have hctry : (setGender req (some "unspecified")).country = req.country := rfl
  have hge1 : genderEntries req = [] := by
    unfold genderEntries
    rw [hgname, if_neg hu]
  have hge2 : genderEntries (setGender req (some "unspecified"))
      = [("gender_unspecified", -0.3)] := by
    unfold genderEntries
    rw [hgk2, if_pos (by decide)]
  have hsm : smokeAdj (setGender req (some "unspecified")).is_smoker
      = smokeAdj req.is_smoker := rfl
  have hex : exerciseVal (setGender req (some "unspecified")) = exerciseVal req := rfl
  have hst : stressVal (setGender req (some "unspecified")) = stressVal req := rfl
  have hbm : bmiEntries (setGender req (some "unspecified")) = bmiEntries req := rfl
  have hadj : adjustmentsOf (setGender req (some "unspecified"))
      = adjustmentsOf req ++ [("gender_unspecified", -0.3)] := by
    unfold adjustmentsOf
    rw [hsm, hex, hst, hbm, hge1, hge2]
    simp
  refine ⟨?_, hadj, ?_, ?_, ?_⟩
  · unfold baseOf
    rw [hctry, hgname, hgk2]
    simp [lookupGenderRow, hgm, hgf]
  · unfold adjustmentsOf
    rw [hge1]
    simp [lookupAdj_append, lookup_gu_smoke, lookup_gu_exercise, lookup_gu_bmi, lookupAdj]
  · rw [conf_clamped, conf_clamped]
    rfl
  · rw [hadj, sumAdj_append, sumAdj_singleton]

theorem C1_amended_w :
    (reqGx.valid = true ∧ reqGx.gender = some "x" ∧ "x" ≠ "" ∧
      pyLower "x" ≠ "male" ∧ pyLower "x" ≠ "female" ∧ pyLower "x" ≠ "unspecified") ∧
    (baseOf reqGx = baseOf (setGender reqGx (some "unspecified")) ∧
      adjustmentsOf (setGender reqGx (some "unspecified"))
        = adjustmentsOf reqGx ++ [("gender_unspecified", -0.3)] ∧
      lookupAdj (adjustmentsOf reqGx) "gender_unspecified" = none ∧
      (estimate_lifespan_years reqGx).2.2
        = (estimate_lifespan_years (setGender reqGx (some "unspecified"))).2.2 ∧
      sumAdj (adjustmentsOf (setGender reqGx (some "unspecified")))
        = sumAdj (adjustmentsOf reqGx) + (-0.3)) :=
  ⟨⟨by decide, by decide, by decide, by decide, by decide, by decide⟩,
    C1_amended reqGx "x" (by decide) (by decide) (by decide) (by decide) (by decide) (by decide)⟩

end LifeExp

namespace LifeExp

lemma ratFloor_eq (x : ℚ) : ratFloor x = ⌊x⌋ := Rat.floor_def.symm

lemma rhe_intCast (n : ℤ) : rhe (n : ℚ) = n := by
  have hf : ratFloor (n : ℚ) = n := by
    rw [ratFloor_eq, Int.floor_intCast]
  unfold rhe
  rw [hf]
  norm_num

lemma rhe_nonneg (x : ℚ) (h : 0 ≤ x) : 0 ≤ rhe x := by
  have hn : 0 ≤ ratFloor x := by
    rw [ratFloor_eq]
    exact Int.floor_nonneg.mpr h
  unfold rhe
  split_ifs <;> omega

lemma pyRound_idem (x : ℚ) (k : ℕ) : pyRound (pyRound x k) k = pyRound x k := by
  unfold pyRound
  rw [div_mul_cancel₀ _ (by positivity : ((10:ℚ)^k) ≠ 0), rhe_intCast]

lemma pyRound_nonneg (x : ℚ) (k : ℕ) (h : 0 ≤ x) : 0 ≤ pyRound x k := by
  unfold pyRound
  apply div_nonneg _ (by positivity)
  exact_mod_cast rhe_nonneg _ (by positivity)

lemma pyRound_zero (k : ℕ) : pyRound 0 k = 0 := by
  unfold pyRound
  rw [zero_mul, show rhe 0 = 0 from by decide]
  norm_num

lemma pyTrunc_nonneg_floor (x : ℚ) (h : 0 ≤ x) : pyTrunc x = ⌊x⌋ := by
  unfold pyTrunc
  rw [if_pos h, ratFloor_eq]

lemma qmax_zero_nonneg (x : ℚ) : 0 ≤ qmax 0 x := by
  rw [qmax_eq]
  exact le_max_left 0 x

/-- Claim C6: the endpoint fails exactly when the birth date string fails to
parse or parses to a date strictly after the evaluation date; in
particular, with evaluation date 2026-10-12, birth date 2026-10-13 is
rejected and birth date 2026-10-12 succeeds with current age exactly 0. -/
theorem C6_date_validation (req : PredictRequest) (today : PyDate) :
    isErr (predict_life req today) = birthRejected req.birth_date today ∧
    isErr (predict_life (withBirth req "2026-10-13") ⟨2026, 10, 12⟩) = true ∧
    respAge (predict_life (withBirth req "2026-10-12") ⟨2026, 10, 12⟩) = some 0 := by
  refine ⟨?_, ?_, ?_⟩
  · unfold predict_life birthRejected
    rcases hp : parseDate req.birth_date with _ | dob
    · simp only [hp, isErr]
    · simp only [hp]
      by_cases hlt : dateLt today dob = true
      · simp [hlt, isErr]
      · simp [hlt, isErr]
  · have hb : (withBirth req "2026-10-13").birth_date = "2026-10-13" := rfl
    unfold predict_life
    rw [hb]
    simp only [show parseDate "2026-10-13" = some ⟨2026, 10, 13⟩ from by decide]
    rw [if_pos (by decide : dateLt ⟨2026, 10, 12⟩ ⟨2026, 10, 13⟩ = true)]
    rfl
  · have hb : (withBirth req "2026-10-12").birth_date = "2026-10-12" := rfl
    unfold predict_life
    rw [hb]
    simp only [show parseDate "2026-10-12" = some ⟨2026, 10, 12⟩ from by decide]
    rw [if_neg (by decide : ¬(dateLt ⟨2026, 10, 12⟩ ⟨2026, 10, 12⟩ = true))]
    simp only [respAge]
    decide

/-- Claim C5 as stated is false on the code: with evaluation date
2026-10-12 and birth date 2026-10-11 (one day of age), the code computes
the death date from the age rounded to 2 decimals (offset 27831 days,
ordinal 767732), while the claim's formula with the unrounded age gives
offset 27830 (ordinal 767731). -/
theorem C5_counterexample :
    respDeath (predict_life reqC5 ⟨2026, 10, 12⟩) ≠
      some (toOrdinal ⟨2026, 10, 12⟩ +
        ⌊(max 0 ((estimate_lifespan_years reqC5).1 -
          ((toOrdinal ⟨2026, 10, 12⟩ - toOrdinal ⟨2026, 10, 11⟩ : ℤ) : ℚ) / yearDays)) *
            yearDays⌋) ∧
    respDeath (predict_life reqC5 ⟨2026, 10, 12⟩) = some 767732 ∧
    toOrdinal ⟨2026, 10, 12⟩ +
      ⌊(max 0 ((estimate_lifespan_years reqC5).1 -
        ((toOrdinal ⟨2026, 10, 12⟩ - toOrdinal ⟨2026, 10, 11⟩ : ℤ) : ℚ) / yearDays)) *
          yearDays⌋ = 767731 := by
  refine ⟨?_, by decide, ?_⟩
  · rw [← qmax_eq, ← ratFloor_eq]
    decide
  · rw [← qmax_eq, ← ratFloor_eq]
    decide

/-- Claim C5 amended: the response's current age is the day difference
divided by 365.2425 and rounded to 2 decimals; remaining years and the
death date are computed from that ROUNDED age: remaining = max(0,
lifespan - roundedAge) (rounded to 2 decimals for presentation) and death
date = today + floor(remaining * 365.2425) days. -/
theorem C5_amended (req : PredictRequest) (today dob : PyDate)
    (hp : parseDate req.birth_date = some dob) (hf : dateLt today dob = false) :
    respAge (predict_life req today) =
      some (pyRound (((toOrdinal today - toOrdinal dob : ℤ) : ℚ) / yearDays) 2) ∧
    respRemaining (predict_life req today) =
      some (pyRound (qmax 0 ((estimate_lifespan_years req).1 -
        pyRound (((toOrdinal today - toOrdinal dob : ℤ) : ℚ) / yearDays) 2)) 2) ∧
    respDeath (predict_life req today) =
      some (toOrdinal today +
        ⌊(qmax 0 ((estimate_lifespan_years req).1 -
          pyRound (((toOrdinal today - toOrdinal dob : ℤ) : ℚ) / yearDays) 2)) * yearDays⌋) := by
  unfold predict_life
  simp only [hp]
  rw [if_neg (by simp [hf])]
  refine ⟨?_, ?_, ?_⟩
  · simp only [respAge]
    rw [pyRound_idem]
  · simp only [respRemaining]
  · simp only [respDeath]
    rw [pyTrunc_nonneg_floor _ (mul_nonneg (qmax_zero_nonneg _) (by norm_num [yearDays]))]

theorem C5_amended_w :
    (parseDate reqScenario.birth_date = some ⟨1990, 1, 1⟩ ∧
      dateLt ⟨2026, 10, 12⟩ ⟨1990, 1, 1⟩ = false) ∧
    (respAge (predict_life reqScenario ⟨2026, 10, 12⟩) =
      some (pyRound (((toOrdinal ⟨2026, 10, 12⟩ - toOrdinal ⟨1990, 1, 1⟩ : ℤ) : ℚ) / yearDays) 2) ∧
    respRemaining (predict_life reqScenario ⟨2026, 10, 12⟩) =
      some (pyRound (qmax 0 ((estimate_lifespan_years reqScenario).1 -
        pyRound (((toOrdinal ⟨2026, 10, 12⟩ - toOrdinal ⟨1990, 1, 1⟩ : ℤ) : ℚ) / yearDays) 2)) 2) ∧
    respDeath (predict_life reqScenario ⟨2026, 10, 12⟩) =
      some (toOrdinal ⟨2026, 10, 12⟩ +
        ⌊(qmax 0 ((estimate_lifespan_years reqScenario).1 -
          pyRound (((toOrdinal ⟨2026, 10, 12⟩ - toOrdinal ⟨1990, 1, 1⟩ : ℤ) : ℚ) / yearDays) 2)) *
            yearDays⌋)) :=
  ⟨⟨by decide, by decide⟩,
    C5_amended reqScenario ⟨2026, 10, 12⟩ ⟨1990, 1, 1⟩ (by decide) (by decide)⟩

/-- Claim C10: remaining years is never negative, and whenever the computed
(rounded) current age is at least the predicted lifespan, the response has
remaining_years = 0 and a predicted death date equal to the evaluation
date. -/
theorem C10_remaining_capped (req : PredictRequest) (today dob : PyDate)
    (hp : parseDate req.birth_date = some dob) (hf : dateLt today dob = false) :
    (∀ r, respRemaining (predict_life req today) = some r → 0 ≤ r) ∧
    ((estimate_lifespan_years req).1 ≤
        pyRound (((toOrdinal today - toOrdinal dob : ℤ) : ℚ) / yearDays) 2 →
      respRemaining (predict_life req today) = some 0 ∧
      respDeath (predict_life req today) = some (toOrdinal today)) := by
  unfold predict_life
  simp only [hp]
  rw [if_neg (by simp [hf])]
  constructor
  · intro r hr
    simp only [respRemaining, Option.some.injEq] at hr
    rw [← hr]
    exact pyRound_nonneg _ _ (qmax_zero_nonneg _)
  · intro hge
    have h0 : qmax 0 ((estimate_lifespan_years req).1 -
        pyRound (((toOrdinal today - toOrdinal dob : ℤ) : ℚ) / yearDays) 2) = 0 := by
      rw [qmax_eq]
      exact max_eq_left (by linarith)
    constructor
    · simp only [respRemaining]
      rw [h0, pyRound_zero]
    · simp only [respDeath]
      rw [h0, zero_mul, show pyTrunc 0 = 0 from by decide, add_zero]

theorem C10_remaining_capped_w :
    (parseDate reqOld.birth_date = some ⟨1900, 1, 1⟩ ∧
      dateLt ⟨2026, 10, 12⟩ ⟨1900, 1, 1⟩ = false ∧
      (estimate_lifespan_years reqOld).1 ≤
        pyRound (((toOrdinal ⟨2026, 10, 12⟩ - toOrdinal ⟨1900, 1, 1⟩ : ℤ) : ℚ) / yearDays) 2) ∧
    respRemaining (predict_life reqOld ⟨2026, 10, 12⟩) = some 0 ∧
    respDeath (predict_life reqOld ⟨2026, 10, 12⟩) = some (toOrdinal ⟨2026, 10, 12⟩) :=
  ⟨⟨by decide, by decide, by decide⟩,
    (C10_remaining_capped reqOld ⟨2026, 10, 12⟩ ⟨1900, 1, 1⟩ (by decide) (by decide)).2 (by decide)⟩

end LifeExp
